import Mathlib

/-
Verification development for the DocSIgn repository (signature placement and
document embedding engine).

Modelling conventions:
* JavaScript numbers are modelled as exact rationals (`ℚ`).  Every claim below
  compares values produced by the same arithmetic operations the source
  performs, carried out exactly.  Note that rational division by zero yields 0
  in Lean while JavaScript yields Infinity; the source contains no test on the
  divisor, so no branch of the modelled code depends on this difference.
* The pdf-lib document handle is modelled by its observable content: the list
  of page dimensions plus the list of text-draw operations appended to it.
  `PDFDocument.getPage(i)` throws when `i` is outside `0 ≤ i < pageCount`;
  this is modelled by `getPage` returning `none`, which the save loop turns
  into the thrown-and-caught failure path of the source's try/catch.
* Network and storage effects (document fetch + parse, per-font fetch + embed,
  storage upload, record update, public-URL lookup) are oracles in `Env`.
* `src/src/components/SignatureEditor.tsx` and `src/unnamed/part_003` hold two
  near-duplicate editors; their `handleSave` bodies differ only in the
  vertical-placement and font-size lines, so the shared control flow is
  `handleSaveWith`, instantiated with `processSigEditor` (SignatureEditor.tsx)
  or `processSigP3` (part_003).
-/

namespace DocSign

/-- One signature stamp, from the `Signature` interface of both editors. -/
structure Sig where
  id : String
  text : String
  font : String
  fontSize : ℚ
  color : String
  x : ℚ
  y : ℚ
  page : Nat
deriving DecidableEq

/-- Native size of one document page (`page.getWidth()` / `page.getHeight()`). -/
structure PageDim where
  width : ℚ
  height : ℚ
deriving DecidableEq

/-- A DOMRect as used via `getBoundingClientRect()`. -/
structure Rect where
  left : ℚ
  top : ℚ
  width : ℚ
  height : ℚ
deriving DecidableEq

/-- `const yOffset = 110` (SignatureEditor.tsx line 64). -/
def yOffset : ℚ := 110

/-- `FONT_FILE_MAP`: logical font name to TTF path.  The two keys whose value
is the JavaScript literal `undefined` behave exactly like absent keys under the
truthiness test `if (FONT_FILE_MAP[sig.font])`, so both are `none` here. -/
def FONT_FILE_MAP : String → Option String
  | "Great Vibes, cursive" => some "/fonts/GreatVibes-Regular.ttf"
  | "Pacifico, cursive" => some "/fonts/Pacifico-Regular.ttf"
  | "Satisfy, cursive" => some "/fonts/Satisfy-Regular.ttf"
  | "Brush Script MT, cursive" => some "/fonts/BrushScriptMT.ttf"
  | _ => none

/-- `hex.replace(<hash>, '')`: JavaScript `String.replace` with a string
pattern removes only the first occurrence. -/
def removeFirst (c : Char) : List Char → List Char
  | [] => []
  | a :: rest => if a = c then rest else a :: removeFirst c rest

/-- `.match(/.{1,2}/g)`: greedy split into groups of two characters, the last
group possibly a single character; the empty string gives no groups (JS
returns `null` there, the code's `if (!match)` branch). -/
def chunk2 : List Char → List (List Char)
  | [] => []
  | [a] => [[a]]
  | a :: b :: rest => [a, b] :: chunk2 rest

/-- Value of one hexadecimal digit by code point, the digit set `parseInt`
accepts with radix 16. -/
def hexVal (c : Char) : Option Nat :=
  if 48 ≤ c.toNat ∧ c.toNat ≤ 57 then some (c.toNat - 48)
  else if 97 ≤ c.toNat ∧ c.toNat ≤ 102 then some (c.toNat - 87)
  else if 65 ≤ c.toNat ∧ c.toNat ≤ 70 then some (c.toNat - 55)
  else none

/-- Accumulator loop of `parseInt(x, 16)`: consume hexadecimal digits from the
left, stopping at the first non-digit. -/
def parseIntHexGo (acc : Nat) : List Char → Nat
  | [] => acc
  | ch :: rest =>
    match hexVal ch with
    | some v => parseIntHexGo (16 * acc + v) rest
    | none => acc

/-- `parseInt(x, 16)` on the short digit groups produced by `chunk2`: `none`
models the `NaN` returned when the string starts with a non-digit. -/
def parseIntHex : List Char → Option Nat
  | [] => none
  | ch :: rest =>
    match hexVal ch with
    | some v => some (parseIntHexGo v rest)
    | none => none

/-- An rgb channel triple; a channel is `none` when the JavaScript value would
be `undefined` (destructuring past the end of the group list) or `NaN`. -/
structure RGBv where
  r : Option ℚ
  g : Option ℚ
  b : Option ℚ
deriving DecidableEq

/-- `hexToRgb` exactly as defined inside both `handleSave` bodies:
strip the first hash, chunk the rest into 1–2 character groups, return black
when there are no groups, else parse each group as hex and divide by 255;
the destructuring `const [r, g, b] = ...` takes the first three groups. -/
def hexToRgb (hex : String) : RGBv :=
  let groups := chunk2 (removeFirst '#' hex.data)
  match groups with
  | [] => ⟨some 0, some 0, some 0⟩
  | _ =>
    let vals := groups.map (fun grp => (parseIntHex grp).map (fun n => (n : ℚ) / 255))
    ⟨(vals.get? 0).bind id, (vals.get? 1).bind id, (vals.get? 2).bind id⟩

/-- `clamp` from both editors: `Math.max(min, Math.min(value, max))`. -/
def clamp (value lo hi : ℚ) : ℚ := max lo (min value hi)

/-- `addSignature`: no-op when the trimmed text is empty, else append a new
signature at the default position (100, 100).  The generated id
(`Date.now().toString()`) is passed in as `newId`. -/
def addSignature (sigs : List Sig) (signatureText selectedFont : String)
    (fontSize : ℚ) (selectedColor : String) (selectedPage : Nat)
    (newId : String) : List Sig :=
  if signatureText.trim.isEmpty then sigs
  else sigs ++ [⟨newId, signatureText, selectedFont, fontSize, selectedColor, 100, 100, selectedPage⟩]

/-- `removeSignature`: keep the signatures whose id differs. -/
def removeSignature (sigs : List Sig) (id : String) : List Sig :=
  sigs.filter (fun sig => sig.id != id)

/-- `updateSignature(id, {x: newX, y: newY})`: merge the position update into
every signature whose id matches. -/
def updateSignature (sigs : List Sig) (id : String) (newX newY : ℚ) : List Sig :=
  sigs.map (fun sig =>
    if sig.id = id then ⟨sig.id, sig.text, sig.font, sig.fontSize, sig.color, newX, newY, sig.page⟩
    else sig)

/-- `handleMouseMove`: guarded by `isDragging`, a selected signature and a
live container ref; on the active path the new position is clamped to
`[0, rect.width - fontSize] × [0, rect.height - fontSize]` and stored via
`updateSignature`. -/
def handleMouseMove (isDragging : Bool) (selected : Option Sig)
    (rect : Option Rect) (dragOffset : ℚ × ℚ) (clientX clientY : ℚ)
    (sigs : List Sig) : List Sig :=
  match isDragging, selected, rect with
  | true, some sel, some r =>
    let fontSize := sel.fontSize
    let newX := clamp (clientX - r.left - dragOffset.1) 0 (r.width - fontSize)
    let newY := clamp (clientY - r.top - dragOffset.2) 0 (r.height - fontSize)
    updateSignature sigs sel.id newX newY
  | _, _, _ => sigs

/-- `handleTouchMove` (part_003): identical computation on `touches[0]`. -/
def handleTouchMove (isDragging : Bool) (selected : Option Sig)
    (rect : Option Rect) (dragOffset : ℚ × ℚ) (touchClientX touchClientY : ℚ)
    (sigs : List Sig) : List Sig :=
  match isDragging, selected, rect with
  | true, some sel, some r =>
    let fontSize := sel.fontSize
    let newX := clamp (touchClientX - r.left - dragOffset.1) 0 (r.width - fontSize)
    let newY := clamp (touchClientY - r.top - dragOffset.2) 0 (r.height - fontSize)
    updateSignature sigs sel.id newX newY
  | _, _, _ => sigs

/-- `pdfDoc.getPage(idx)`: returns the page when `0 ≤ idx < pageCount`; the
pdf-lib range assertion throw is modelled by `none`. -/
def getPage (pages : List PageDim) (idx : Int) : Option PageDim :=
  if idx < 0 then none else pages.get? idx.toNat

/-- Cause of a thrown exception inside the `try` block of `handleSave`.  The
source's catch-all turns each of these into the generic failure alert; the
cause records which statement threw. -/
inductive ExnCause where
  | loadFailed
  | pageOutOfRange
  | fontFetchFailed
deriving DecidableEq

/-- Which font handle `page.drawText` receives: the preloaded standard
Helvetica, or a font embedded from fetched bytes at the given path. -/
inductive FontChoice where
  | standard
  | embedded (url : String)
deriving DecidableEq

/-- One `page.drawText(sig.text, {x, y, size, color, font})` call. -/
structure DrawOp where
  text : String
  x : ℚ
  y : ℚ
  size : ℚ
  color : RGBv
  font : FontChoice
deriving DecidableEq

/-- The fields of the externally owned `Document` record that `handleSave`
reads. -/
structure DocRecord where
  id : String
  user_id : String
deriving DecidableEq

/-- External effects and collaborators of one `handleSave` run:
`loaded` is the outcome of fetching `original_url` and `PDFDocument.load`
(`none` means either step threw); `containerRect` is
`pdfContainerRef.current?.getBoundingClientRect()`; `fontOk url` says whether
fetching and embedding the font bytes at `url` succeeds (`false` means one of
those awaits threw); `uploadError` and `dbError` are the storage-upload and
record-update error results; `publicUrlOf` is `getPublicUrl`. -/
structure Env where
  loaded : Option (List PageDim)
  containerRect : Option (ℚ × ℚ)
  fontOk : String → Bool
  uploadError : Option String
  publicUrlOf : String → String
  dbError : Option String

/-- Per-signature body of the save loop in `SignatureEditor.tsx` lines
158–181: look up the page (a range failure throws), derive `scaleX`/`scaleY`,
compute `scaledX = x * scaleX` and
`scaledY = pageHeight - y * scaleY - fontSize / 2 + yOffset`, convert the
color, resolve the font (a mapped path whose fetch fails throws), and draw at
the unscaled font size. -/
def processSigEditor (pages : List PageDim) (overlayWidth overlayHeight : ℚ)
    (fontOk : String → Bool) (sig : Sig) : Except ExnCause DrawOp :=
  match getPage pages ((sig.page : Int) - 1) with
  | none => .error .pageOutOfRange
  | some pg =>
    let pageHeight := pg.height
    let pageWidth := pg.width
    let scaleX := pageWidth / overlayWidth
    let scaleY := pageHeight / overlayHeight
    let scaledX := sig.x * scaleX
    let scaledY := pageHeight - sig.y * scaleY - sig.fontSize / 2 + yOffset
    let c := hexToRgb sig.color
    match FONT_FILE_MAP sig.font with
    | some fontUrl =>
      if fontOk fontUrl then .ok ⟨sig.text, scaledX, scaledY, sig.fontSize, c, .embedded fontUrl⟩
      else .error .fontFetchFailed
    | none => .ok ⟨sig.text, scaledX, scaledY, sig.fontSize, c, .standard⟩

/-- Per-signature body of the save loop in `part_003` lines 194–219: same
structure, but `scaledY = pageHeight - y * scaleY - fontSize * scaleY` and the
drawn size is `fontSize * scaleY`. -/
def processSigP3 (pages : List PageDim) (overlayWidth overlayHeight : ℚ)
    (fontOk : String → Bool) (sig : Sig) : Except ExnCause DrawOp :=
  match getPage pages ((sig.page : Int) - 1) with
  | none => .error .pageOutOfRange
  | some pg =>
    let pageHeight := pg.height
    let pageWidth := pg.width
    let scaleX := pageWidth / overlayWidth
    let scaleY := pageHeight / overlayHeight
    let scaledX := sig.x * scaleX
    let scaledY := pageHeight - sig.y * scaleY - sig.fontSize * scaleY
    let c := hexToRgb sig.color
    match FONT_FILE_MAP sig.font with
    | some fontUrl =>
      if fontOk fontUrl then .ok ⟨sig.text, scaledX, scaledY, sig.fontSize * scaleY, c, .embedded fontUrl⟩
      else .error .fontFetchFailed
    | none => .ok ⟨sig.text, scaledX, scaledY, sig.fontSize * scaleY, c, .standard⟩

/-- The `for (const sig of signatures)` loop: signatures are processed in list
order, and the first thrown exception aborts the loop (and with it the whole
`try` block). -/
def runSigs (proc : Sig → Except ExnCause DrawOp) : List Sig → Except ExnCause (List DrawOp)
  | [] => .ok []
  | s :: rest =>
    match proc s with
    | .error c => .error c
    | .ok op =>
      match runSigs proc rest with
      | .error c => .error c
      | .ok ops => .ok (op :: ops)

/-- How one `handleSave` run ends, matching the source's early returns:
the zero-signature guard alert, the catch-all alert (with the recorded throw
cause), the upload-failure alert, the record-update-failure alert, or the
success alert followed by `onSave()`. -/
inductive SaveOutcome where
  | refusedNoSignatures
  | caught (cause : ExnCause)
  | uploadFailed (msg : String)
  | dbFailed (msg : String)
  | success
deriving DecidableEq

/-- Payload of the single `.update({signed_url, status: 'signed'})` call. -/
structure RecordUpdate where
  signed_url : String
  status : String
deriving DecidableEq

/-- Observable result of one `handleSave` run: the outcome, the bytes
persisted to storage (the serialized document: source pages plus appended
draw operations), and the document-record update that was emitted. -/
structure SaveResult where
  outcome : SaveOutcome
  uploaded : Option (List PageDim × List DrawOp)
  recordUpdate : Option RecordUpdate
deriving DecidableEq

/-- `let overlayWidth = 500` overridden by `rect.width` when the container
ref is live. -/
def overlayWidthOf (rect : Option (ℚ × ℚ)) : ℚ :=
  match rect with
  | some r => r.1
  | none => 500

/-- `let overlayHeight = 600` overridden by `rect.height` when the container
ref is live. -/
def overlayHeightOf (rect : Option (ℚ × ℚ)) : ℚ :=
  match rect with
  | some r => r.2
  | none => 600

/-- `handleSave`, common to both editors up to the per-signature placement
(`proc`): refuse on an empty signature list; fetch and parse the source
document; read the overlay size from the container rect, defaulting to
500 × 600; run the signature loop; serialize; upload (stop on upload error
with nothing persisted); look up the public URL; emit the single record
update carrying `signed_url` and `status: 'signed'` (stop on db error with
the bytes already uploaded but no record update). -/
def handleSaveWith
    (proc : List PageDim → ℚ → ℚ → (String → Bool) → Sig → Except ExnCause DrawOp)
    (doc : DocRecord) (sigs : List Sig) (env : Env) : SaveResult :=
  if sigs.length = 0 then ⟨.refusedNoSignatures, none, none⟩
  else
    match env.loaded with
    | none => ⟨.caught .loadFailed, none, none⟩
    | some pages =>
      match runSigs (proc pages (overlayWidthOf env.containerRect)
          (overlayHeightOf env.containerRect) env.fontOk) sigs with
      | .error c => ⟨.caught c, none, none⟩
      | .ok ops =>
        let pdfBytes := (pages, ops)
        let fileName := "signed-" ++ doc.id ++ ".pdf"
        let filePath := doc.user_id ++ "/" ++ fileName
        match env.uploadError with
        | some m => ⟨.uploadFailed m, none, none⟩
        | none =>
          let signedUrl := env.publicUrlOf filePath
          match env.dbError with
          | some m => ⟨.dbFailed m, some pdfBytes, none⟩
          | none => ⟨.success, some pdfBytes, some ⟨signedUrl, "signed"⟩⟩

/-- `handleSave` of `SignatureEditor.tsx`. -/
def handleSave (doc : DocRecord) (sigs : List Sig) (env : Env) : SaveResult :=
  handleSaveWith processSigEditor doc sigs env

/-- `handleSave` of `part_003`. -/
def handleSaveP3 (doc : DocRecord) (sigs : List Sig) (env : Env) : SaveResult :=
  handleSaveWith processSigP3 doc sigs env

/-- Test fixture: a single US-Letter-like page of 612 × 792 native units. -/
def pagesOne : List PageDim := [⟨612, 792⟩]

/-- Test fixture: a three-page document. -/
def pagesThree : List PageDim := [⟨612, 792⟩, ⟨612, 792⟩, ⟨612, 792⟩]

/-- Test fixture: the document record under edit. -/
def docEx : DocRecord := ⟨"d1", "u1"⟩

/-- Test fixture: the spec's example annotation — text "Jane Doe", font size
24, color `#1e40af`, overlay position (100, 100), page 1, using a font that
resolves to the standard font. -/
def sigEx : Sig := ⟨"1", "Jane Doe", "Arial, sans-serif", 24, "#1e40af", 100, 100, 1⟩

/-- Test fixture: a benign environment — the one-page document parses, the
overlay rect is 500 × 600, every font fetch succeeds, upload and record
update succeed, and the public URL is the file path itself. -/
def envOk : Env := ⟨some pagesOne, some (500, 600), fun _ => true, none, fun s => s, none⟩

/-- Test fixture: the native page used by `pagesOne`. -/
def pgEx : PageDim := ⟨612, 792⟩

/-- Test fixture: a 500 × 600 container rect at the origin. -/
def rectEx : Rect := ⟨0, 0, 500, 600⟩

/-- Test fixture: the draw operation `SignatureEditor.tsx` produces for
`sigEx` on `pgEx` with a 500 × 600 overlay (758 = 792 − 132 − 12 + 110). -/
def opEdEx : DrawOp := ⟨"Jane Doe", 612 / 5, 758, 24, hexToRgb "#1e40af", .standard⟩

/-- Test fixture: the draw operation `part_003` produces for `sigEx` on
`pgEx` with a 500 × 600 overlay (15708/25 = 628.32, 792/25 = 31.68). -/
def opP3Ex : DrawOp := ⟨"Jane Doe", 612 / 5, 15708 / 25, 792 / 25, hexToRgb "#1e40af", .standard⟩

/-- Test fixture: benign environment whose container rect has width 0. -/
def envZeroW : Env := ⟨some pagesOne, some (0, 600), fun _ => true, none, fun s => s, none⟩

/-- Test fixture: benign environment whose container rect has height 0. -/
def envZeroH : Env := ⟨some pagesOne, some (500, 0), fun _ => true, none, fun s => s, none⟩

/-- Test fixture: benign environment over the three-page document. -/
def envThree : Env := ⟨some pagesThree, some (500, 600), fun _ => true, none, fun s => s, none⟩

/-- Test fixture: an annotation targeting page 5. -/
def sigPage5 : Sig := ⟨"1", "a", "Arial, sans-serif", 24, "#000000", 100, 100, 5⟩

/-- Test fixture: an annotation whose font is mapped to a TTF path. -/
def sigGV : Sig := ⟨"2", "John", "Great Vibes, cursive", 24, "#000000", 100, 100, 1⟩

/-- Test fixture: benign environment in which every font fetch fails. -/
def envFontFail : Env := ⟨some pagesOne, some (500, 600), fun _ => false, none, fun s => s, none⟩

/-- Test fixture: benign environment in which the storage upload fails. -/
def envUpFail : Env := ⟨some pagesOne, some (500, 600), fun _ => true, some "boom", fun s => s, none⟩

end DocSign

namespace DocSign

/-- A hexadecimal digit's value is at most 15. -/
theorem hexVal_le (c : Char) (v : Nat) (h : hexVal c = some v) : v ≤ 15 := by
  unfold hexVal at h
  split_ifs at h with h1 h2 h3 <;> simp_all <;> omega

/-- A parsed two-digit channel, divided by 255, lies in the unit interval. -/
theorem hexChannelBounds (n : Nat) (h : n ≤ 255) :
    0 ≤ ((n : ℚ) / 255) ∧ ((n : ℚ) / 255) ≤ 1 := by
  refine ⟨by positivity, ?_⟩
  rw [div_le_one (by norm_num)]
  exact_mod_cast h

/-- `getPage` fails when the 1-based page number exceeds the page count. -/
theorem getPage_eq_none (pages : List PageDim) (page : Nat)
    (h : pages.length < page) : getPage pages ((page : Int) - 1) = none := by
  unfold getPage
  rw [if_neg (by omega)]
  have h2 : ((page : Int) - 1).toNat = page - 1 := by omega
  rw [h2]
  exact List.get?_eq_none.2 (by omega)

/-- The `SignatureEditor.tsx` loop body throws the page-range failure when the
annotation's page number exceeds the page count. -/
theorem processSigEditor_pageOut {ow oh : ℚ} {fontOk : String → Bool}
    (pages : List PageDim) (sig : Sig) (h : pages.length < sig.page) :
    processSigEditor pages ow oh fontOk sig = .error .pageOutOfRange := by
  unfold processSigEditor
  rw [getPage_eq_none pages sig.page h]

/-- The `part_003` loop body throws the page-range failure when the
annotation's page number exceeds the page count. -/
theorem processSigP3_pageOut {ow oh : ℚ} {fontOk : String → Bool}
    (pages : List PageDim) (sig : Sig) (h : pages.length < sig.page) :
    processSigP3 pages ow oh fontOk sig = .error .pageOutOfRange := by
  unfold processSigP3
  rw [getPage_eq_none pages sig.page h]

/-- If some signature in the list makes the loop body throw, the whole loop
throws (with the first exception raised). -/
theorem runSigs_error_of_mem {proc : Sig → Except ExnCause DrawOp}
    {P : Sig → Prop} (hbad : ∀ s, P s → proc s = .error .pageOutOfRange) :
    ∀ sigs : List Sig, (∃ s ∈ sigs, P s) → ∃ c, runSigs proc sigs = .error c := by
  intro sigs
  induction sigs with
  | nil => rintro ⟨s, hs, _⟩; cases hs
  | cons a rest ih =>
    rintro ⟨s, hs, hPs⟩
    cases hpa : proc a with
    | error c => exact ⟨c, by simp [runSigs, hpa]⟩
    | ok op =>
      rcases List.mem_cons.1 hs with rfl | hmem
      · rw [hbad s hPs] at hpa; cases hpa
      · obtain ⟨c, hc⟩ := ih ⟨s, hmem, hPs⟩
        exact ⟨c, by simp [runSigs, hpa, hc]⟩

end DocSign

namespace DocSign

/-- Claim C7: adding a signature whose generated id does not already occur in
the store and then removing that id returns the annotation list to exactly
its previous content (whether or not the trimmed text was empty, in which
case the add was already a no-op). -/
theorem claim7_thm (sigs : List Sig) (t f clr : String) (fs : ℚ) (p : Nat)
    (newId : String) (h : ∀ s ∈ sigs, s.id ≠ newId) :
    removeSignature (addSignature sigs t f fs clr p newId) newId = sigs := by
  unfold addSignature removeSignature
  split_ifs with ht
  · exact List.filter_eq_self.2 fun a ha => by simpa using h a ha
  · rw [List.filter_append]
    have h2 : List.filter (fun sig : Sig => sig.id != newId)
        ([⟨newId, t, f, fs, clr, 100, 100, p⟩] : List Sig) = [] := by simp
    rw [h2, List.append_nil]
    exact List.filter_eq_self.2 fun a ha => by simpa using h a ha

/-- Witness for C7 at a concrete store. -/
theorem claim7_wit :
    removeSignature (addSignature [sigEx] "b" "f" 24 "#000000" 1 "2") "2" = [sigEx] :=
  claim7_thm [sigEx] "b" "f" "#000000" 24 1 "2" (by decide)

/-- Claim C8: whenever an interactive move (mouse or touch) fires with a
dragged selection and a live container rect of size `width × height`, and the
selected annotation's footprint (the code uses its font size) fits in the
rect, the position stored by `updateSignature` is clamped into
`[0, width - fontSize] × [0, height - fontSize]`, so the stamp never lands
fully outside the visible overlay. -/
theorem claim8_thm (sel : Sig) (r : Rect) (dX dY clientX clientY : ℚ)
    (sigs : List Sig) (hw : sel.fontSize ≤ r.width) (hh : sel.fontSize ≤ r.height) :
    handleMouseMove true (some sel) (some r) (dX, dY) clientX clientY sigs =
      updateSignature sigs sel.id
        (clamp (clientX - r.left - dX) 0 (r.width - sel.fontSize))
        (clamp (clientY - r.top - dY) 0 (r.height - sel.fontSize))
    ∧ handleTouchMove true (some sel) (some r) (dX, dY) clientX clientY sigs =
      updateSignature sigs sel.id
        (clamp (clientX - r.left - dX) 0 (r.width - sel.fontSize))
        (clamp (clientY - r.top - dY) 0 (r.height - sel.fontSize))
    ∧ 0 ≤ clamp (clientX - r.left - dX) 0 (r.width - sel.fontSize)
    ∧ clamp (clientX - r.left - dX) 0 (r.width - sel.fontSize) ≤ r.width - sel.fontSize
    ∧ 0 ≤ clamp (clientY - r.top - dY) 0 (r.height - sel.fontSize)
    ∧ clamp (clientY - r.top - dY) 0 (r.height - sel.fontSize) ≤ r.height - sel.fontSize := by
  refine ⟨rfl, rfl, le_max_left _ _, ?_, le_max_left _ _, ?_⟩
  · exact max_le (sub_nonneg.2 hw) (min_le_right _ _)
  · exact max_le (sub_nonneg.2 hh) (min_le_right _ _)

/-- Witness for C8 at a concrete move. -/
theorem claim8_wit :
    handleMouseMove true (some sigEx) (some rectEx) (9, 8) 150 120 [sigEx] =
      updateSignature [sigEx] sigEx.id
        (clamp (150 - rectEx.left - 9) 0 (rectEx.width - sigEx.fontSize))
        (clamp (120 - rectEx.top - 8) 0 (rectEx.height - sigEx.fontSize))
    ∧ handleTouchMove true (some sigEx) (some rectEx) (9, 8) 150 120 [sigEx] =
      updateSignature [sigEx] sigEx.id
        (clamp (150 - rectEx.left - 9) 0 (rectEx.width - sigEx.fontSize))
        (clamp (120 - rectEx.top - 8) 0 (rectEx.height - sigEx.fontSize))
    ∧ 0 ≤ clamp (150 - rectEx.left - 9) 0 (rectEx.width - sigEx.fontSize)
    ∧ clamp (150 - rectEx.left - 9) 0 (rectEx.width - sigEx.fontSize) ≤ rectEx.width - sigEx.fontSize
    ∧ 0 ≤ clamp (120 - rectEx.top - 8) 0 (rectEx.height - sigEx.fontSize)
    ∧ clamp (120 - rectEx.top - 8) 0 (rectEx.height - sigEx.fontSize) ≤ rectEx.height - sigEx.fontSize :=
  claim8_thm sigEx rectEx 9 8 150 120 [sigEx] (by decide) (by decide)

/-- Claim C10: `hexToRgb` is total on the covered inputs — on a hash followed
by six hexadecimal digits it returns the three two-digit groups each divided
by 255 (every channel in `[0, 1]`), and on the empty string and on a bare
hash (inputs with no two-character groups) it returns black rather than
failing. -/
theorem claim10_thm (a1 a2 a3 a4 a5 a6 : Char) (v1 v2 v3 v4 v5 v6 : Nat)
    (h1 : hexVal a1 = some v1) (h2 : hexVal a2 = some v2)
    (h3 : hexVal a3 = some v3) (h4 : hexVal a4 = some v4)
    (h5 : hexVal a5 = some v5) (h6 : hexVal a6 = some v6) :
    hexToRgb (String.mk ['#', a1, a2, a3, a4, a5, a6]) =
      ⟨some (((16 * v1 + v2 : Nat) : ℚ) / 255),
       some (((16 * v3 + v4 : Nat) : ℚ) / 255),
       some (((16 * v5 + v6 : Nat) : ℚ) / 255)⟩
    ∧ (0 ≤ ((16 * v1 + v2 : Nat) : ℚ) / 255 ∧ ((16 * v1 + v2 : Nat) : ℚ) / 255 ≤ 1)
    ∧ (0 ≤ ((16 * v3 + v4 : Nat) : ℚ) / 255 ∧ ((16 * v3 + v4 : Nat) : ℚ) / 255 ≤ 1)
    ∧ (0 ≤ ((16 * v5 + v6 : Nat) : ℚ) / 255 ∧ ((16 * v5 + v6 : Nat) : ℚ) / 255 ≤ 1)
    ∧ hexToRgb "" = ⟨some 0, some 0, some 0⟩
    ∧ hexToRgb "#" = ⟨some 0, some 0, some 0⟩ := by
  refine ⟨?_, ?_, ?_, ?_, by decide, by decide⟩
  · show hexToRgb ⟨['#', a1, a2, a3, a4, a5, a6]⟩ = _
    simp [hexToRgb, removeFirst, chunk2, parseIntHex, parseIntHexGo,
      h1, h2, h3, h4, h5, h6]
  · exact hexChannelBounds _ (by have := hexVal_le a1 v1 h1; have := hexVal_le a2 v2 h2; omega)
  · exact hexChannelBounds _ (by have := hexVal_le a3 v3 h3; have := hexVal_le a4 v4 h4; omega)
  · exact hexChannelBounds _ (by have := hexVal_le a5 v5 h5; have := hexVal_le a6 v6 h6; omega)

/-- Witness for C10 at the color `#1e40af` (30, 64, 175). -/
theorem claim10_wit :
    hexToRgb (String.mk ['#', '1', 'e', '4', '0', 'a', 'f']) =
      ⟨some (((16 * 1 + 14 : Nat) : ℚ) / 255),
       some (((16 * 4 + 0 : Nat) : ℚ) / 255),
       some (((16 * 10 + 15 : Nat) : ℚ) / 255)⟩
    ∧ (0 ≤ ((16 * 1 + 14 : Nat) : ℚ) / 255 ∧ ((16 * 1 + 14 : Nat) : ℚ) / 255 ≤ 1)
    ∧ (0 ≤ ((16 * 4 + 0 : Nat) : ℚ) / 255 ∧ ((16 * 4 + 0 : Nat) : ℚ) / 255 ≤ 1)
    ∧ (0 ≤ ((16 * 10 + 15 : Nat) : ℚ) / 255 ∧ ((16 * 10 + 15 : Nat) : ℚ) / 255 ≤ 1)
    ∧ hexToRgb "" = ⟨some 0, some 0, some 0⟩
    ∧ hexToRgb "#" = ⟨some 0, some 0, some 0⟩ :=
  claim10_thm '1' 'e' '4' '0' 'a' 'f' 1 14 4 0 10 15
    (by decide) (by decide) (by decide) (by decide) (by decide) (by decide)

end DocSign

namespace DocSign

/-- The truthiness test on `FONT_FILE_MAP` for a font name mapped to
`undefined`: resolves to the standard font. -/
theorem fmap_arial : FONT_FILE_MAP "Arial, sans-serif" = none := rfl

/-- `FONT_FILE_MAP` on a font name mapped to a TTF path. -/
theorem fmap_gv : FONT_FILE_MAP "Great Vibes, cursive" = some "/fonts/GreatVibes-Regular.ttf" := rfl

/-- Folding of the concrete `filePath` string built by `handleSave`. -/
theorem filePathEx : "u1" ++ "/" ++ ("signed-" ++ "d1" ++ ".pdf") = "u1/signed-d1.pdf" := rfl

/-- Claim C1 counterexample: on the spec's own example (annotation at overlay
(100, 100), font size 24, overlay 500 × 600, page 612 × 792), the
`SignatureEditor.tsx` save draws at x = 612/5 = 122.4 but y = 758 (its formula
is `pageHeight - y*scaleY - fontSize/2 + yOffset` = 792 − 132 − 12 + 110),
not the claimed y = 15708/25 = 628.32.  So the claimed formula does not hold
of this embedding implementation. -/
theorem claim1_cex :
    handleSave docEx [sigEx] envOk =
      ⟨.success, some (pagesOne, [opEdEx]), some ⟨"u1/signed-d1.pdf", "signed"⟩⟩
    ∧ opEdEx.x = 612 / 5
    ∧ opEdEx.y = 758
    ∧ (758 : ℚ) ≠ 15708 / 25 := by
  refine ⟨?_, by norm_num [opEdEx], by norm_num [opEdEx], by norm_num⟩
  simp only [handleSave, handleSaveWith, overlayWidthOf, overlayHeightOf, envOk, docEx,
    runSigs, processSigEditor, pagesOne, sigEx, getPage, opEdEx, yOffset]
  norm_num [List.get?, fmap_arial, filePathEx]

/-- Claim C1 (amended): the `part_003` save implementation computes native
X = `x * (pageWidth / overlayWidth)` and native
Y = `pageHeight - y * scaleY - fontSize * scaleY` for every annotation whose
page lookup succeeds, and on the spec's example it draws at exactly
(612/5, 15708/25) = (122.4, 628.32); the `SignatureEditor.tsx` implementation
instead uses `fontSize / 2` and a fixed 110 offset (see the counterexample). -/
theorem claim1_thm (pages : List PageDim) (ow oh : ℚ) (fontOk : String → Bool)
    (sig : Sig) (pg : PageDim) (op : DrawOp)
    (hpg : getPage pages ((sig.page : Int) - 1) = some pg)
    (hop : processSigP3 pages ow oh fontOk sig = .ok op) :
    op.x = sig.x * (pg.width / ow)
    ∧ op.y = pg.height - sig.y * (pg.height / oh) - sig.fontSize * (pg.height / oh)
    ∧ handleSaveP3 docEx [sigEx] envOk =
        ⟨.success, some (pagesOne, [opP3Ex]), some ⟨"u1/signed-d1.pdf", "signed"⟩⟩ := by
  have key : op.x = sig.x * (pg.width / ow)
      ∧ op.y = pg.height - sig.y * (pg.height / oh) - sig.fontSize * (pg.height / oh) := by
    unfold processSigP3 at hop
    simp only [hpg] at hop
    rcases hm : FONT_FILE_MAP sig.font with _ | url <;> simp only [hm] at hop
    · simp only [Except.ok.injEq] at hop
      subst hop
      exact ⟨rfl, rfl⟩
    · by_cases hf : fontOk url = true
      · rw [if_pos hf] at hop
        simp only [Except.ok.injEq] at hop
        subst hop
        exact ⟨rfl, rfl⟩
      · rw [if_neg hf] at hop
        simp at hop
  refine ⟨key.1, key.2, ?_⟩
  simp only [handleSaveP3, handleSaveWith, overlayWidthOf, overlayHeightOf, envOk, docEx,
    runSigs, processSigP3, pagesOne, sigEx, getPage, opP3Ex]
  norm_num [List.get?, fmap_arial, filePathEx]

/-- Witness for C1 at the spec's example annotation. -/
theorem claim1_wit :
    opP3Ex.x = sigEx.x * (pgEx.width / 500)
    ∧ opP3Ex.y = pgEx.height - sigEx.y * (pgEx.height / 600) - sigEx.fontSize * (pgEx.height / 600)
    ∧ handleSaveP3 docEx [sigEx] envOk =
        ⟨.success, some (pagesOne, [opP3Ex]), some ⟨"u1/signed-d1.pdf", "signed"⟩⟩ :=
  claim1_thm pagesOne 500 600 (fun _ => true) sigEx pgEx opP3Ex (by decide)
    (by simp only [processSigP3, pagesOne, sigEx, getPage, opP3Ex]
        norm_num [List.get?, fmap_arial])

/-- Claim C2 (code behavior at the failing input): with an overlay rect of
width 0 (or height 0), neither save implementation raises any
degenerate-geometry condition — no such error path exists in the source.  The
scale division is performed regardless (JavaScript produces Infinity there;
the rational model produces 0 — no branch of the code tests the divisor), the
stamp is drawn, bytes are serialized, uploaded, and the record update is
emitted.  This contradicts the claim, which requires a `DegenerateGeometry`
failure and no output bytes. -/
theorem claim2_thm :
    handleSave docEx [sigEx] envZeroW =
      ⟨.success, some (pagesOne, [⟨"Jane Doe", 0, 758, 24, hexToRgb "#1e40af", .standard⟩]),
        some ⟨"u1/signed-d1.pdf", "signed"⟩⟩
    ∧ handleSave docEx [sigEx] envZeroH =
      ⟨.success, some (pagesOne, [⟨"Jane Doe", 612 / 5, 890, 24, hexToRgb "#1e40af", .standard⟩]),
        some ⟨"u1/signed-d1.pdf", "signed"⟩⟩
    ∧ handleSaveP3 docEx [sigEx] envZeroW =
      ⟨.success, some (pagesOne, [⟨"Jane Doe", 0, 15708 / 25, 792 / 25, hexToRgb "#1e40af", .standard⟩]),
        some ⟨"u1/signed-d1.pdf", "signed"⟩⟩
    ∧ handleSaveP3 docEx [sigEx] envZeroH =
      ⟨.success, some (pagesOne, [⟨"Jane Doe", 612 / 5, 792, 0, hexToRgb "#1e40af", .standard⟩]),
        some ⟨"u1/signed-d1.pdf", "signed"⟩⟩ := by
  refine ⟨?_, ?_, ?_, ?_⟩ <;>
    simp only [handleSave, handleSaveP3, handleSaveWith, overlayWidthOf, overlayHeightOf,
      envZeroW, envZeroH, docEx, runSigs, processSigEditor, processSigP3, pagesOne, sigEx,
      getPage, yOffset] <;>
    norm_num [List.get?, fmap_arial, filePathEx]

/-- Claim C4: the two near-duplicate save implementations are not equivalent.
On the same annotation (font size 24 at overlay (100, 100)) and geometry
(500 × 600 overlay, 612 × 792 page), `SignatureEditor.tsx` draws at
y = 792 − 100·(792/600) − 24/2 + 110 = 758 with the font size left unscaled
(24), while `part_003` draws at y = 792 − 100·(792/600) − 24·(792/600) =
628.32 with the font size scaled by `scaleY` (31.68); the two vertical
placements and sizes differ. -/
theorem claim4_thm :
    processSigEditor pagesOne 500 600 (fun _ => true) sigEx = .ok opEdEx
    ∧ processSigP3 pagesOne 500 600 (fun _ => true) sigEx = .ok opP3Ex
    ∧ opEdEx.y = 792 - 100 * (792 / 600) - 24 / 2 + 110
    ∧ opEdEx.size = 24
    ∧ opP3Ex.y = 792 - 100 * (792 / 600) - 24 * (792 / 600)
    ∧ opP3Ex.size = 24 * (792 / 600)
    ∧ opEdEx.y ≠ opP3Ex.y
    ∧ opEdEx.size ≠ opP3Ex.size := by
  refine ⟨?_, ?_, by norm_num [opEdEx], by norm_num [opEdEx], by norm_num [opP3Ex],
    by norm_num [opP3Ex], by norm_num [opEdEx, opP3Ex], by norm_num [opEdEx, opP3Ex]⟩
  · simp only [processSigEditor, pagesOne, sigEx, getPage, opEdEx, yOffset]
    norm_num [List.get?, fmap_arial]
  · simp only [processSigP3, pagesOne, sigEx, getPage, opP3Ex]
    norm_num [List.get?, fmap_arial]

/-- Claim C6 counterexample: with an empty annotation list both save
implementations refuse to run (the `signatures.length === 0` guard alerts and
returns), producing no output bytes — they do not perform the claimed
pass-through embed. -/
theorem claim6_cex :
    handleSave docEx [] envOk = ⟨.refusedNoSignatures, none, none⟩
    ∧ handleSaveP3 docEx [] envOk = ⟨.refusedNoSignatures, none, none⟩ := ⟨rfl, rfl⟩

/-- Claim C6 (amended): for every document record and environment, running
either save implementation with an empty annotation list refuses up front:
no fetch, no embed, no upload and no record update happen. -/
theorem claim6_thm (doc : DocRecord) (env : Env) :
    handleSave doc [] env = ⟨.refusedNoSignatures, none, none⟩
    ∧ handleSaveP3 doc [] env = ⟨.refusedNoSignatures, none, none⟩ := ⟨rfl, rfl⟩

end DocSign

namespace DocSign

/-- Claim C3: (1) the per-annotation loop body of either implementation
throws the page-range failure whenever the annotation's 1-based page number
exceeds the parsed page count; (2) a single such annotation makes the whole
save end in the caught page-range failure with nothing uploaded and no record
update; (3) more generally, whenever any annotation in the list is out of
range, the save ends in a caught failure with nothing uploaded and no record
update — the source bytes are never replaced. -/
theorem claim3_thm :
    (∀ (pages : List PageDim) (ow oh : ℚ) (fontOk : String → Bool) (sig : Sig),
      pages.length < sig.page →
      processSigEditor pages ow oh fontOk sig = .error .pageOutOfRange
      ∧ processSigP3 pages ow oh fontOk sig = .error .pageOutOfRange)
    ∧ (∀ (doc : DocRecord) (env : Env) (sig : Sig) (pages : List PageDim),
      env.loaded = some pages → pages.length < sig.page →
      handleSave doc [sig] env = ⟨.caught .pageOutOfRange, none, none⟩
      ∧ handleSaveP3 doc [sig] env = ⟨.caught .pageOutOfRange, none, none⟩)
    ∧ (∀ (doc : DocRecord) (env : Env) (sigs : List Sig) (pages : List PageDim),
      env.loaded = some pages → (∃ s ∈ sigs, pages.length < s.page) →
      (∃ c, handleSave doc sigs env = ⟨.caught c, none, none⟩)
      ∧ (∃ c, handleSaveP3 doc sigs env = ⟨.caught c, none, none⟩)) := by
  refine ⟨?_, ?_, ?_⟩
  · intro pages ow oh fontOk sig h
    exact ⟨processSigEditor_pageOut pages sig h, processSigP3_pageOut pages sig h⟩
  · intro doc env sig pages hl hp
    constructor
    · simp [handleSave, handleSaveWith, hl, runSigs, processSigEditor_pageOut pages sig hp]
    · simp [handleSaveP3, handleSaveWith, hl, runSigs, processSigP3_pageOut pages sig hp]
  · intro doc env sigs pages hl hex
    have hne : ¬ sigs.length = 0 := by
      rcases hex with ⟨s, hs, _⟩
      cases sigs
      · cases hs
      · simp
    constructor
    · obtain ⟨c, hc⟩ := @runSigs_error_of_mem
        (processSigEditor pages (overlayWidthOf env.containerRect)
          (overlayHeightOf env.containerRect) env.fontOk)
        (fun s => pages.length < s.page)
        (fun s hP => processSigEditor_pageOut pages s hP) sigs hex
      exact ⟨c, by simp [handleSave, handleSaveWith, hl, hc, hne]⟩
    · obtain ⟨c, hc⟩ := @runSigs_error_of_mem
        (processSigP3 pages (overlayWidthOf env.containerRect)
          (overlayHeightOf env.containerRect) env.fontOk)
        (fun s => pages.length < s.page)
        (fun s hP => processSigP3_pageOut pages s hP) sigs hex
      exact ⟨c, by simp [handleSaveP3, handleSaveWith, hl, hc, hne]⟩

/-- Witness for C3: page 5 requested on the three-page document; both save
implementations end in the caught page-range failure with nothing persisted. -/
theorem claim3_wit :
    handleSave docEx [sigPage5] envThree = ⟨.caught .pageOutOfRange, none, none⟩
    ∧ handleSaveP3 docEx [sigPage5] envThree = ⟨.caught .pageOutOfRange, none, none⟩ :=
  claim3_thm.2.1 docEx envThree sigPage5 pagesThree rfl (by decide)

/-- Claim C5 (code behavior at the failing input): when the first
annotation's font is mapped to a TTF path whose fetch (or byte load) fails,
the whole save aborts through the catch-all — the failing annotation is not
degraded to the standard font, the remaining annotations are never embedded,
no bytes are produced, and no warning list exists anywhere in the code.  This
contradicts the claim, which requires per-annotation degradation plus a
warning list alongside output bytes. -/
theorem claim5_thm (doc : DocRecord) (env : Env) (sig : Sig) (rest : List Sig)
    (pages : List PageDim) (pg : PageDim) (url : String)
    (hl : env.loaded = some pages)
    (hpg : getPage pages ((sig.page : Int) - 1) = some pg)
    (hurl : FONT_FILE_MAP sig.font = some url)
    (hfail : env.fontOk url = false) :
    handleSave doc (sig :: rest) env = ⟨.caught .fontFetchFailed, none, none⟩
    ∧ handleSaveP3 doc (sig :: rest) env = ⟨.caught .fontFetchFailed, none, none⟩ := by
  have hede : processSigEditor pages (overlayWidthOf env.containerRect)
      (overlayHeightOf env.containerRect) env.fontOk sig = .error .fontFetchFailed := by
    unfold processSigEditor
    simp [hpg, hurl, hfail]
  have hp3 : processSigP3 pages (overlayWidthOf env.containerRect)
      (overlayHeightOf env.containerRect) env.fontOk sig = .error .fontFetchFailed := by
    unfold processSigP3
    simp [hpg, hurl, hfail]
  constructor
  · simp [handleSave, handleSaveWith, hl, runSigs, hede]
  · simp [handleSaveP3, handleSaveWith, hl, runSigs, hp3]

/-- Witness for C5: the first annotation uses "Great Vibes, cursive" and the
font fetch fails; the second annotation is never embedded and the save ends
in the caught failure with nothing persisted. -/
theorem claim5_wit :
    handleSave docEx [sigGV, sigEx] envFontFail = ⟨.caught .fontFetchFailed, none, none⟩
    ∧ handleSaveP3 docEx [sigGV, sigEx] envFontFail = ⟨.caught .fontFetchFailed, none, none⟩ :=
  claim5_thm docEx envFontFail sigGV [sigEx] pagesOne pgEx
    "/fonts/GreatVibes-Regular.ttf" rfl (by decide) fmap_gv rfl

/-- Every run of the shared save control flow either emits no record update,
or the upload succeeded and the result is the success state whose single
record update carries the looked-up public URL and status `signed`. -/
theorem handleSaveWith_cases
    (proc : List PageDim → ℚ → ℚ → (String → Bool) → Sig → Except ExnCause DrawOp)
    (doc : DocRecord) (sigs : List Sig) (env : Env) :
    (handleSaveWith proc doc sigs env).recordUpdate = none
    ∨ (env.uploadError = none ∧ ∃ pages ops,
        handleSaveWith proc doc sigs env =
          ⟨.success, some (pages, ops),
            some ⟨env.publicUrlOf (doc.user_id ++ "/" ++ ("signed-" ++ doc.id ++ ".pdf")),
              "signed"⟩⟩) := by
  unfold handleSaveWith
  split
  · left; rfl
  · split
    · left; rfl
    · split
      · left; rfl
      · split
        · left; rfl
        · split
          · left; rfl
          · right
            exact ⟨by assumption, _, _, rfl⟩

/-- When the storage upload fails, the shared save control flow persists
nothing and emits no record update. -/
theorem handleSaveWith_uploadErr
    (proc : List PageDim → ℚ → ℚ → (String → Bool) → Sig → Except ExnCause DrawOp)
    (doc : DocRecord) (sigs : List Sig) (env : Env) (m : String)
    (hm : env.uploadError = some m) :
    (handleSaveWith proc doc sigs env).uploaded = none
    ∧ (handleSaveWith proc doc sigs env).recordUpdate = none := by
  unfold handleSaveWith
  split
  · exact ⟨rfl, rfl⟩
  · split
    · exact ⟨rfl, rfl⟩
    · split
      · exact ⟨rfl, rfl⟩
      · rw [hm]
        exact ⟨rfl, rfl⟩

/-- Claim C9: in every run of the shared save control flow (so in both
implementations), a record update is emitted only when the upload succeeded
and bytes were persisted, and that single update carries both
`status = "signed"` and the `signed_url` obtained from the public-URL lookup
of the uploaded file's path; conversely, if the upload fails, no bytes are
persisted and no record update of any kind is emitted. -/
theorem claim9_thm
    (proc : List PageDim → ℚ → ℚ → (String → Bool) → Sig → Except ExnCause DrawOp)
    (doc : DocRecord) (sigs : List Sig) (env : Env) :
    (∀ u, (handleSaveWith proc doc sigs env).recordUpdate = some u →
      env.uploadError = none
      ∧ (handleSaveWith proc doc sigs env).uploaded ≠ none
      ∧ u.status = "signed"
      ∧ u.signed_url = env.publicUrlOf (doc.user_id ++ "/" ++ ("signed-" ++ doc.id ++ ".pdf")))
    ∧ (∀ m, env.uploadError = some m →
      (handleSaveWith proc doc sigs env).uploaded = none
      ∧ (handleSaveWith proc doc sigs env).recordUpdate = none) := by
  constructor
  · intro u hu
    rcases handleSaveWith_cases proc doc sigs env with hnone | ⟨hup, pages, ops, hr⟩
    · rw [hnone] at hu
      cases hu
    · rw [hr] at hu
      simp only [Option.some.injEq] at hu
      subst hu
      refine ⟨hup, ?_, rfl, rfl⟩
      rw [hr]
      simp
  · intro m hm
    exact handleSaveWith_uploadErr proc doc sigs env m hm

/-- Witness for C9: with a failing upload, nothing is persisted and no record
update is emitted. -/
theorem claim9_wit :
    (handleSaveWith processSigEditor docEx [sigEx] envUpFail).uploaded = none
    ∧ (handleSaveWith processSigEditor docEx [sigEx] envUpFail).recordUpdate = none :=
  (claim9_thm processSigEditor docEx [sigEx] envUpFail).2 "boom" rfl

end DocSign
